import Mathlib

/-!
Shallow embedding of `src/result.ts` from marionebl/result: an asynchronous
`Result<Payload>` value type whose Ok/Err state is determined structurally
(by whether the resolved payload is an `Error` instance), together with the
companion `Option` collaborator values it consumes and produces.

Modelling conventions:
* A JavaScript runtime value is a `JSVal`: an `Error` instance (carrying its
  message), a number, a string, `undefined`, or an `Option` instance
  (`Option.Some(v)` / `Option.None()` from `@marionebl/option`, whose
  `isSome`/`unwrapOr` are synchronous, as the repository's tests use them).
* The `payload` field of a `Result` is a `Payload`: either a plain (already
  resolved) value as stored by `sync()`, a promise that resolves to a value,
  or a promise that rejects with a value. Awaiting it is `awaitP`, returning
  `Except JSVal JSVal` where `Except.error f` models `await` throwing `f`.
* An `async` method that can reject returns `Except JSVal _`
  (`Except.error v` models the returned promise rejecting with `v`); a
  method whose body catches every throw returns its value directly.
* Callback arguments (`fn` in `map`, `mapErr`, ...) are modelled as total
  functions; methods that invoke callbacks additionally return the list of
  arguments the callback was applied to (or an invocation count), so that
  "`fn` is never invoked" is expressible.
-/

/-- A JavaScript runtime value, restricted to the kinds the library
distinguishes: `Error` instances (with message), numbers, strings,
`undefined`, and `Option` instances from the collaborator package. -/
inductive JSVal where
  | error : String → JSVal
  | num : Int → JSVal
  | str : String → JSVal
  | undef : JSVal
  | some : JSVal → JSVal
  | none : JSVal
deriving DecidableEq, Repr

/-- The `instanceof Error` check the library uses for structural state. -/
def JSVal.isError : JSVal → Bool
  | .error _ => true
  | _ => false

/-- The `instanceof Option` check used by `transpose`. -/
def JSVal.isOption : JSVal → Bool
  | .some _ => true
  | .none => true
  | _ => false

/-- `Option.prototype.isSome()` of the collaborator package (synchronous,
as the repository's tests use it); `false` on non-Option values, on which
the library never calls it. -/
def JSVal.isSome : JSVal → Bool
  | .some _ => true
  | _ => false

/-- `Option.prototype.unwrapOr(fallback)` of the collaborator package:
the contained value of a `Some`, otherwise the fallback. `transpose` only
calls it under an `isSome()` guard, so the fallback is never consulted
there. -/
def JSVal.unwrapOr (o fb : JSVal) : JSVal :=
  match o with
  | .some x => x
  | _ => fb

/-- JavaScript `String(v)` on the modelled values (used by `unwrapErr`'s
`new Error(String(payload))`). -/
def jsString : JSVal → String
  | .error m => "Error: " ++ m
  | .num n => toString n
  | .str s => s
  | .undef => "undefined"
  | .some _ => "[object Object]"
  | .none => "[object Object]"

/-- The `payload` field of a `Result`: a plain already-resolved value (as
stored by `sync()`), a promise resolving to a value, or a promise rejecting
with a value. -/
inductive Payload where
  | plain : JSVal → Payload
  | pending : JSVal → Payload
  | failing : JSVal → Payload
deriving DecidableEq, Repr

/-- Outcome of `await this.payload`: the resolved value, or the thrown
rejection value. A plain (non-promise) value awaits to itself. -/
def awaitP : Payload → Except JSVal JSVal
  | .plain v => .ok v
  | .pending v => .ok v
  | .failing f => .error f

/-- `Promise.resolve().then(() => payload)` as performed by the `Result`
constructor: a plain value becomes a promise resolving to it, and a promise
keeps its outcome. -/
def Payload.toPromise : Payload → Payload
  | .plain v => .pending v
  | .pending v => .pending v
  | .failing f => .failing f

/-- The `Result` class: a single (mutable, but modelled by value) `payload`
field. -/
structure Result where
  payload : Payload
deriving DecidableEq, Repr

/-- The private constructor `new Result({ payload })`, which wraps the
argument as `Promise.resolve().then(() => payload)`. -/
def Result.make (p : Payload) : Result :=
  { payload := p.toPromise }

/-- `Result.from(payload)`. -/
def Result.«from» (p : Payload) : Result :=
  Result.make p

/-- `Result.Ok(payload)` (same runtime behaviour as `from`, only typed
differently in the source). -/
def Result.Ok (p : Payload) : Result :=
  Result.make p

/-- `Result.Err(err)` (takes a plain `Error` value). -/
def Result.Err (e : JSVal) : Result :=
  Result.make (Payload.plain e)

/-- `sync()`: awaits the payload and stores the resolved value in place;
a rejection is caught and the raw rejection value is stored instead. -/
def Result.sync (r : Result) : Result :=
  match awaitP r.payload with
  | .ok v => { payload := Payload.plain v }
  | .error f => { payload := Payload.plain f }

/-- `isErr()`: awaits the payload and tests `instanceof Error`; a rejection
is caught and yields `true`. -/
def Result.isErr (r : Result) : Bool :=
  match awaitP r.payload with
  | .ok v => v.isError
  | .error _ => true

/-- `isOk()`: awaits the payload and tests `!(instanceof Error)`; a
rejection is caught and yields `false`. -/
def Result.isOk (r : Result) : Bool :=
  match awaitP r.payload with
  | .ok v => !v.isError
  | .error _ => false

/-- `ok()`: `Some(payload)` when `isOk()`, else `None`. The second
`await this.payload` sits outside any try/catch, so its (dead, since
`isOk()` implies the payload resolves) throw path would reject the
method's promise. -/
def Result.ok (r : Result) : Except JSVal (Option JSVal) :=
  if r.isOk then
    match awaitP r.payload with
    | .ok v => .ok (Option.some v)
    | .error f => .error f
  else .ok Option.none

/-- `err()`: the whole body is inside try/catch: `Some(payload)` when the
resolved payload is an `Error`, `None` otherwise, and `Some(rawRejection)`
when resolution fails. -/
def Result.err (r : Result) : Option JSVal :=
  match awaitP r.payload with
  | .ok v => if v.isError then Option.some v else Option.none
  | .error f => Option.some f

/-- `map(fn)`: when `isOk()`, re-awaits the payload (outside try/catch) and
returns `Result.Ok(await fn(payload))`; otherwise returns `this`. Also
returns the list of arguments `fn` was applied to. -/
def Result.map (r : Result) (fn : JSVal → JSVal) :
    Except JSVal (Result × List JSVal) :=
  if r.isOk then
    match awaitP r.payload with
    | .ok v => .ok (Result.Ok (Payload.plain (fn v)), [v])
    | .error f => .error f
  else .ok (r, [])

/-- `mapOrElse(fallback, fn)`: when `isOk()`, re-awaits the payload and
returns `Result.Ok(await fn(payload))`; otherwise returns
`Result.Ok(await fallback())`. Also returns the list of arguments `fn` was
applied to. -/
def Result.mapOrElse (r : Result) (fb : Unit → JSVal) (fn : JSVal → JSVal) :
    Except JSVal (Result × List JSVal) :=
  if r.isOk then
    match awaitP r.payload with
    | .ok v => .ok (Result.Ok (Payload.plain (fn v)), [v])
    | .error f => .error f
  else .ok (Result.Ok (Payload.plain (fb ())), [])

/-- `mapErr(fn)`: when `isErr()`, re-awaits the payload — outside any
try/catch, so when the payload rejects this `await` throws and the method's
promise rejects with the original failure; otherwise returns `this`. Also
returns the list of arguments `fn` was applied to. -/
def Result.mapErr (r : Result) (fn : JSVal → JSVal) :
    Except JSVal (Result × List JSVal) :=
  if r.isErr then
    match awaitP r.payload with
    | .ok v => .ok (Result.Err (fn v), [v])
    | .error f => .error f
  else .ok (r, [])

/-- `and(b)`: `this` when `isErr()`; otherwise `b` (the source returns `b`
in both remaining branches). -/
def Result.and (r b : Result) : Result :=
  if r.isErr then r
  else if b.isErr then b
  else b

/-- `or(b)`: `this` when `isOk()`, otherwise `b`. -/
def Result.or (r b : Result) : Result :=
  if r.isOk then r
  else b

/-- `orElse(fn)`: `this` when `isOk()`, otherwise `fn()`. Also returns how
many times `fn` was invoked. -/
def Result.orElse (r : Result) (fn : Unit → Result) : Result × Nat :=
  if r.isOk then (r, 0)
  else (fn (), 1)

/-- `unwrapOr(fallback)`: the fallback when `isErr()`, otherwise
`this.payload` (returned as a promise, so the method's outcome is the
payload's outcome; the throw path is dead since `isErr()` is false). -/
def Result.unwrapOr (r : Result) (fb : JSVal) : Except JSVal JSVal :=
  if r.isErr then .ok fb
  else
    match awaitP r.payload with
    | .ok v => .ok v
    | .error f => .error f

/-- `unwrapOrElse(fn)`: when `isErr()`, evaluates `fn(await this.payload)`
— the `await` sits outside any try/catch, so when the payload rejects the
method's promise rejects with the original failure; otherwise returns
`this.payload`. Also returns the list of arguments `fn` was applied to. -/
def Result.unwrapOrElse (r : Result) (fn : JSVal → JSVal) :
    Except JSVal (JSVal × List JSVal) :=
  if r.isErr then
    match awaitP r.payload with
    | .ok v => .ok (fn v, [v])
    | .error f => .error f
  else
    match awaitP r.payload with
    | .ok v => .ok (v, [])
    | .error f => .error f

/-- `unwrap()`: awaits the payload with no try/catch; throws the payload
itself when it is an `Error`, returns it otherwise; a rejection propagates
uncaught. -/
def Result.unwrap (r : Result) : Except JSVal JSVal :=
  match awaitP r.payload with
  | .ok v => if v.isError then .error v else .ok v
  | .error f => .error f

/-- `expect(message)`: returns the payload when it resolves to a non-Error;
in every other case (payload is an `Error`, or resolution rejects) the
method throws `new Error(message)` — the body's own throw is caught by its
catch clause, which rethrows `new Error(message)`. -/
def Result.expect (r : Result) (msg : String) : Except JSVal JSVal :=
  match awaitP r.payload with
  | .ok v => if v.isError then .error (JSVal.error msg) else .ok v
  | .error _ => .error (JSVal.error msg)

/-- `unwrapErr()`: the whole body is inside try/catch: the payload when it
is an `Error`; on a non-Error payload the thrown `new Error(String(payload))`
is caught by the method's own catch clause and returned; a rejection is
likewise caught and its raw value returned. -/
def Result.unwrapErr (r : Result) : JSVal :=
  match awaitP r.payload with
  | .ok v => if v.isError then v else JSVal.error (jsString v)
  | .error f => f

/-- `expectErr(message)`: like `unwrapErr` but the failure constructed on a
non-Error payload carries `message`; caught and returned, never raised. -/
def Result.expectErr (r : Result) (msg : String) : JSVal :=
  match awaitP r.payload with
  | .ok v => if v.isError then v else JSVal.error msg
  | .error f => f

/-- What `transpose()` places inside the `Option` it returns: either a
`Result` (the declared element type) or — in the catch branch of the source
— the raw caught rejection value itself. -/
inductive TransItem where
  | result : Result → TransItem
  | raw : JSVal → TransItem
deriving DecidableEq, Repr

/-- `transpose()`: the whole body is inside try/catch. A resolved payload
that is a present `Option` yields `Some(Result.Ok(payload.unwrapOr(...)))`
(the fallback is never consulted, the branch requires `isSome()`); a
resolved `Error` yields `Some(Result.Err(payload))`; any other resolved
value yields `None`; a rejection is caught and `Some(rawRejection)` is
returned. -/
def Result.transpose (r : Result) : Option TransItem :=
  match awaitP r.payload with
  | .ok v =>
    if v.isOption && v.isSome then
      Option.some (TransItem.result (Result.Ok (Payload.plain (v.unwrapOr JSVal.none))))
    else if v.isError then
      Option.some (TransItem.result (Result.Err v))
    else
      Option.none
  | .error f => Option.some (TransItem.raw f)

/-- Helper: a value that is an `Error` instance is not an `Option` instance
(the modelled value kinds are disjoint, as `instanceof` checks against
distinct classes are). -/
theorem JSVal.isOption_eq_false_of_isError (v : JSVal) (h : v.isError = true) :
    v.isOption = false := by
  cases v <;> simp_all [JSVal.isError, JSVal.isOption]

/-- C1 counterexample: on a `Result` whose deferred payload rejects with
`Error("x")`, both `mapErr` and `unwrapOrElse` re-await the payload after
their `isErr()` check, outside any try/catch, so the methods' promises
reject with the original failure — contradicting the claim that `mapErr`
and `unwrapOrElse` never reject due to payload resolution failure. -/
theorem c1_counterexample :
    (Result.«from» (Payload.failing (JSVal.error "x"))).mapErr id
      = Except.error (JSVal.error "x") ∧
    (Result.«from» (Payload.failing (JSVal.error "x"))).unwrapOrElse id
      = Except.error (JSVal.error "x") :=
  ⟨rfl, rfl⟩

/-- C1 amended: for every `Result` whose deferred payload rejects with `f`,
the inspection methods `isErr`, `isOk`, `err`, `unwrapErr`, `expectErr` and
`transpose` catch the mechanical failure and return normally, folding it
into their Err-side answer; `ok`, `map`, `mapOrElse`, `unwrapOr`, `and`,
`or` and `orElse` also return normally and never reject; but `mapErr` and
`unwrapOrElse` re-await the payload after detecting Err and reject with the
original resolution failure `f`. -/
theorem c1_mech_failure_amended (f b : JSVal) (msg : String)
    (fn : JSVal → JSVal) (fb : Unit → JSVal) (s : Result) (g : Unit → Result) :
    (Result.«from» (Payload.failing f)).isErr = true ∧
    (Result.«from» (Payload.failing f)).isOk = false ∧
    (Result.«from» (Payload.failing f)).err = Option.some f ∧
    (Result.«from» (Payload.failing f)).unwrapErr = f ∧
    (Result.«from» (Payload.failing f)).expectErr msg = f ∧
    (Result.«from» (Payload.failing f)).transpose
      = Option.some (TransItem.raw f) ∧
    (Result.«from» (Payload.failing f)).ok = Except.ok Option.none ∧
    (Result.«from» (Payload.failing f)).map fn
      = Except.ok (Result.«from» (Payload.failing f), []) ∧
    (Result.«from» (Payload.failing f)).mapOrElse fb fn
      = Except.ok (Result.Ok (Payload.plain (fb ())), []) ∧
    (Result.«from» (Payload.failing f)).unwrapOr b = Except.ok b ∧
    (Result.«from» (Payload.failing f)).and s
      = Result.«from» (Payload.failing f) ∧
    (Result.«from» (Payload.failing f)).or s = s ∧
    (Result.«from» (Payload.failing f)).orElse g = (g (), 1) ∧
    (Result.«from» (Payload.failing f)).mapErr fn = Except.error f ∧
    (Result.«from» (Payload.failing f)).unwrapOrElse fn = Except.error f :=
  ⟨rfl, rfl, rfl, rfl, rfl, rfl, rfl, rfl, rfl, rfl, rfl, rfl, rfl, rfl, rfl⟩

/-- C2 counterexample: a `Result` whose deferred payload rejects with the
non-Error value `5` is observed Err before `sync()` but Ok afterwards —
`sync()` stores the raw rejection value as the payload, and structural
inspection then classifies the non-Error value `5` as Ok. -/
theorem c2_counterexample :
    (Result.«from» (Payload.failing (JSVal.num 5))).isErr = true ∧
    ((Result.«from» (Payload.failing (JSVal.num 5))).sync).isErr = false :=
  ⟨rfl, rfl⟩

/-- C2 amended: `sync()` does not change observable state (Ok stays Ok,
Err stays Err) whenever the deferred payload resolves, or rejects with an
Error-kind value; only a rejection with a non-Error value flips the
observed state from Err to Ok. (`isOk()` itself never mutates the payload,
so repeated calls agree by construction.) -/
theorem c2_sync_amended (r : Result)
    (h : ∀ f, r.payload = Payload.failing f → f.isError = true) :
    (r.sync).isErr = r.isErr ∧ (r.sync).isOk = r.isOk := by
  obtain ⟨p⟩ := r
  cases p with
  | plain v => exact ⟨rfl, rfl⟩
  | pending v => exact ⟨rfl, rfl⟩
  | failing f =>
    have hf := h f rfl
    refine ⟨?_, ?_⟩
    · simp [Result.sync, awaitP, Result.isErr, hf]
    · simp [Result.sync, awaitP, Result.isOk, hf]

/-- Witness for C2 amended, at a `Result` whose payload rejects with an
Error-kind value. -/
theorem c2_sync_amended_witness :
    ((Result.«from» (Payload.failing (JSVal.error "x"))).sync).isErr
      = (Result.«from» (Payload.failing (JSVal.error "x"))).isErr ∧
    ((Result.«from» (Payload.failing (JSVal.error "x"))).sync).isOk
      = (Result.«from» (Payload.failing (JSVal.error "x"))).isOk :=
  c2_sync_amended (Result.«from» (Payload.failing (JSVal.error "x")))
    (fun f h => by injection h with h1; subst h1; rfl)

/-- C3: on a `Result` whose deferred payload rejects with `Error("x")`, the
catch branch of `transpose()` returns `Option.Some(err)` — the bare caught
rejection value — and not `Some(Err(err))`, a `Result` in Err state, as the
claim (and the method's declared return type `Option<Result<Payload>>`)
require. -/
theorem c3_transpose_reject_eval :
    (Result.«from» (Payload.failing (JSVal.error "x"))).transpose
      = Option.some (TransItem.raw (JSVal.error "x")) ∧
    (Result.«from» (Payload.failing (JSVal.error "x"))).transpose
      ≠ Option.some (TransItem.result (Result.Err (JSVal.error "x"))) := by
  refine ⟨rfl, ?_⟩
  decide

/-- C4: `unwrapErr()` on an Err returns the error value; on an Ok it
builds `new Error(String(payload))`, which its own catch clause catches
and returns (not raises). `expectErr(message)` returns the error value on
an Err and returns (not raises) an `Error` carrying `message` on an Ok. -/
theorem c4_unwrapErr_expectErr (e v : JSVal) (msg : String)
    (he : e.isError = true) (hv : v.isError = false) :
    (Result.Err e).unwrapErr = e ∧
    (Result.Ok (Payload.plain v)).unwrapErr = JSVal.error (jsString v) ∧
    (Result.Err e).expectErr msg = e ∧
    (Result.Ok (Payload.plain v)).expectErr msg = JSVal.error msg := by
  refine ⟨?_, ?_, ?_, ?_⟩ <;>
    simp [Result.Err, Result.Ok, Result.make, Payload.toPromise,
      Result.unwrapErr, Result.expectErr, awaitP, he, hv]

/-- Witness for C4 at `e = Error("m")`, `v = 1`, `msg = "oops"`. -/
theorem c4_unwrapErr_expectErr_witness :
    (JSVal.error "m").isError = true ∧ (JSVal.num 1).isError = false ∧
    ((Result.Err (JSVal.error "m")).unwrapErr = JSVal.error "m" ∧
     (Result.Ok (Payload.plain (JSVal.num 1))).unwrapErr
       = JSVal.error (jsString (JSVal.num 1)) ∧
     (Result.Err (JSVal.error "m")).expectErr "oops" = JSVal.error "m" ∧
     (Result.Ok (Payload.plain (JSVal.num 1))).expectErr "oops"
       = JSVal.error "oops") :=
  ⟨rfl, rfl, c4_unwrapErr_expectErr (JSVal.error "m") (JSVal.num 1) "oops" rfl rfl⟩

/-- C5: `transpose()` on a normally resolving payload: `Ok(Some(v))`
yields `Some(Ok(v))`; `Ok(None())` yields `None()`; `Err(e)` yields
`Some(Err(e))`; a resolved payload that is neither an `Option` nor an
`Error` yields `None()`. -/
theorem c5_transpose_resolved (v e o : JSVal) (he : e.isError = true)
    (ho1 : o.isOption = false) (ho2 : o.isError = false) :
    (Result.Ok (Payload.plain (JSVal.some v))).transpose
      = Option.some (TransItem.result (Result.Ok (Payload.plain v))) ∧
    (Result.Ok (Payload.plain JSVal.none)).transpose = Option.none ∧
    (Result.Err e).transpose
      = Option.some (TransItem.result (Result.Err e)) ∧
    (Result.Ok (Payload.plain o)).transpose = Option.none := by
  have he' := JSVal.isOption_eq_false_of_isError e he
  refine ⟨rfl, rfl, ?_, ?_⟩
  · simp [Result.Err, Result.make, Payload.toPromise, Result.transpose,
      awaitP, he, he']
  · simp [Result.Ok, Result.make, Payload.toPromise, Result.transpose,
      awaitP, ho1, ho2]

/-- Witness for C5 at `v = 1`, `e = Error("m")`, `o = 2`. -/
theorem c5_transpose_resolved_witness :
    (JSVal.error "m").isError = true ∧ (JSVal.num 2).isOption = false ∧
    (JSVal.num 2).isError = false ∧
    ((Result.Ok (Payload.plain (JSVal.some (JSVal.num 1)))).transpose
       = Option.some (TransItem.result (Result.Ok (Payload.plain (JSVal.num 1)))) ∧
     (Result.Ok (Payload.plain JSVal.none)).transpose = Option.none ∧
     (Result.Err (JSVal.error "m")).transpose
       = Option.some (TransItem.result (Result.Err (JSVal.error "m"))) ∧
     (Result.Ok (Payload.plain (JSVal.num 2))).transpose = Option.none) :=
  ⟨rfl, rfl, rfl,
    c5_transpose_resolved (JSVal.num 1) (JSVal.error "m") (JSVal.num 2) rfl rfl rfl⟩

/-- C6: for every non-Error payload `p`, `Ok(p).map(f)` equals
`Ok(f(p))` with `f` applied exactly once, to `p`; for every Error value
`e`, `Err(e).map(f)` returns the same `Err(e)` and `f` is never invoked
(empty argument list). -/
theorem c6_map (p e : JSVal) (fn : JSVal → JSVal)
    (hp : p.isError = false) (he : e.isError = true) :
    (Result.Ok (Payload.plain p)).map fn
      = Except.ok (Result.Ok (Payload.plain (fn p)), [p]) ∧
    (Result.Err e).map fn = Except.ok (Result.Err e, []) := by
  refine ⟨?_, ?_⟩ <;>
    simp [Result.Err, Result.Ok, Result.make, Payload.toPromise,
      Result.map, Result.isOk, awaitP, hp, he]

/-- Witness for C6 at `p = 1`, `e = Error("m")`, `fn = id`. -/
theorem c6_map_witness :
    (JSVal.num 1).isError = false ∧ (JSVal.error "m").isError = true ∧
    ((Result.Ok (Payload.plain (JSVal.num 1))).map id
       = Except.ok (Result.Ok (Payload.plain (id (JSVal.num 1))), [JSVal.num 1]) ∧
     (Result.Err (JSVal.error "m")).map id
       = Except.ok (Result.Err (JSVal.error "m"), [])) :=
  ⟨rfl, rfl, c6_map (JSVal.num 1) (JSVal.error "m") id rfl rfl⟩

/-- C7: `Err(e).and(b)` returns the original `Err(e)` for any `b`;
`Ok(a).and(b)` returns `b` whether `b` is Ok or Err; `Ok(a).or(b)` returns
the Ok unchanged for any `b`; `Err(e).or(b)` returns `b` unchanged;
`orElse(fn)` short-circuits like `or`, with `fn` invoked exactly once when
self is Err (its result returned) and never when self is Ok. -/
theorem c7_and_or_orElse (a e : JSVal) (b : Result) (g : Unit → Result)
    (ha : a.isError = false) (he : e.isError = true) :
    (Result.Err e).and b = Result.Err e ∧
    (Result.Ok (Payload.plain a)).and b = b ∧
    (Result.Ok (Payload.plain a)).or b = Result.Ok (Payload.plain a) ∧
    (Result.Err e).or b = b ∧
    (Result.Ok (Payload.plain a)).orElse g = (Result.Ok (Payload.plain a), 0) ∧
    (Result.Err e).orElse g = (g (), 1) := by
  refine ⟨?_, ?_, ?_, ?_, ?_, ?_⟩ <;>
    simp [Result.Err, Result.Ok, Result.make, Payload.toPromise,
      Result.and, Result.or, Result.orElse, Result.isErr, Result.isOk,
      awaitP, ha, he]

/-- Witness for C7 at `a = 1`, `e = Error("m")`, `b = Err(Error("n"))`,
`g` constantly `Ok(2)`. -/
theorem c7_and_or_orElse_witness :
    (JSVal.num 1).isError = false ∧ (JSVal.error "m").isError = true ∧
    ((Result.Err (JSVal.error "m")).and (Result.Err (JSVal.error "n"))
       = Result.Err (JSVal.error "m") ∧
     (Result.Ok (Payload.plain (JSVal.num 1))).and (Result.Err (JSVal.error "n"))
       = Result.Err (JSVal.error "n") ∧
     (Result.Ok (Payload.plain (JSVal.num 1))).or (Result.Err (JSVal.error "n"))
       = Result.Ok (Payload.plain (JSVal.num 1)) ∧
     (Result.Err (JSVal.error "m")).or (Result.Err (JSVal.error "n"))
       = Result.Err (JSVal.error "n") ∧
     (Result.Ok (Payload.plain (JSVal.num 1))).orElse
         (fun _ => Result.Ok (Payload.plain (JSVal.num 2)))
       = (Result.Ok (Payload.plain (JSVal.num 1)), 0) ∧
     (Result.Err (JSVal.error "m")).orElse
         (fun _ => Result.Ok (Payload.plain (JSVal.num 2)))
       = ((fun _ => Result.Ok (Payload.plain (JSVal.num 2))) (), 1)) :=
  ⟨rfl, rfl,
    c7_and_or_orElse (JSVal.num 1) (JSVal.error "m")
      (Result.Err (JSVal.error "n"))
      (fun _ => Result.Ok (Payload.plain (JSVal.num 2))) rfl rfl⟩

/-- C8: `expect(message)` returns the payload on an Ok; on an Err, and
when payload resolution itself fails, it raises an `Error` whose content
is exactly `message`, discarding the original error's content. -/
theorem c8_expect (p e f : JSVal) (msg : String)
    (hp : p.isError = false) (he : e.isError = true) :
    (Result.Ok (Payload.plain p)).expect msg = Except.ok p ∧
    (Result.Err e).expect msg = Except.error (JSVal.error msg) ∧
    (Result.«from» (Payload.failing f)).expect msg
      = Except.error (JSVal.error msg) := by
  refine ⟨?_, ?_, ?_⟩ <;>
    simp [Result.Err, Result.Ok, Result.«from», Result.make,
      Payload.toPromise, Result.expect, awaitP, hp, he]

/-- Witness for C8 at `p = 1`, `e = Error("..")`, `f = Error("z")`,
`msg = "Booh!"`. -/
theorem c8_expect_witness :
    (JSVal.num 1).isError = false ∧ (JSVal.error "..").isError = true ∧
    ((Result.Ok (Payload.plain (JSVal.num 1))).expect "Booh!"
       = Except.ok (JSVal.num 1) ∧
     (Result.Err (JSVal.error "..")).expect "Booh!"
       = Except.error (JSVal.error "Booh!") ∧
     (Result.«from» (Payload.failing (JSVal.error "z"))).expect "Booh!"
       = Except.error (JSVal.error "Booh!")) :=
  ⟨rfl, rfl,
    c8_expect (JSVal.num 1) (JSVal.error "..") (JSVal.error "z") "Booh!" rfl rfl⟩

/-- C9: `unwrap()` on an Err raises the wrapped error value itself,
preserving its content; on an Ok it returns the payload without raising. -/
theorem c9_unwrap (p e : JSVal) (hp : p.isError = false) (he : e.isError = true) :
    (Result.Err e).unwrap = Except.error e ∧
    (Result.Ok (Payload.plain p)).unwrap = Except.ok p := by
  refine ⟨?_, ?_⟩ <;>
    simp [Result.Err, Result.Ok, Result.make, Payload.toPromise,
      Result.unwrap, awaitP, hp, he]

/-- Witness for C9 at `p = 1`, `e = Error("m")`. -/
theorem c9_unwrap_witness :
    (JSVal.num 1).isError = false ∧ (JSVal.error "m").isError = true ∧
    ((Result.Err (JSVal.error "m")).unwrap = Except.error (JSVal.error "m") ∧
     (Result.Ok (Payload.plain (JSVal.num 1))).unwrap = Except.ok (JSVal.num 1)) :=
  ⟨rfl, rfl, c9_unwrap (JSVal.num 1) (JSVal.error "m") rfl rfl⟩

/-- C10: for a `Result` whose deferred payload rejects with a value `v`
that is not an Error-kind instance, `isErr()` returns `true` and `err()`
returns `Some(v)` holding the raw rejected value itself — an `Option`
nominally holding an `Error` that holds a non-Error value. -/
theorem c10_err_raw (v : JSVal) (hv : v.isError = false) :
    (Result.«from» (Payload.failing v)).isErr = true ∧
    (Result.«from» (Payload.failing v)).err = Option.some v ∧
    (JSVal.isError v = false) :=
  ⟨rfl, rfl, hv⟩

/-- Witness for C10 at the non-Error rejection value `5`. -/
theorem c10_err_raw_witness :
    (JSVal.num 5).isError = false ∧
    ((Result.«from» (Payload.failing (JSVal.num 5))).isErr = true ∧
     (Result.«from» (Payload.failing (JSVal.num 5))).err
       = Option.some (JSVal.num 5) ∧
     (JSVal.isError (JSVal.num 5) = false)) :=
  ⟨rfl, c10_err_raw (JSVal.num 5) rfl⟩
